import Mathlib

/-!
Verification of the RhythmGame repository (src/src/main.rs): a shallow
embedding of the game's data model and per-frame systems, with theorems
settling the specification's claims about scoring, target movement,
input handling, spawning, state transitions and asset-handle faults.

Conventions of the embedding:
* Rust `i32` score/combo arithmetic is modelled with `Int` (the values
  reachable in play are tiny, far from overflow).
* `f32` coordinates are modelled with `Rat`; the comparisons and the
  linear position update of the source are exact at this granularity.
* A Rust panic (`Option::unwrap` on `None`) is modelled as
  `Except.error ()`; systems that cannot panic are total functions.
* ECS queries are modelled as lists of entity records; `despawn` removes
  the record, events are accumulated in lists in emission order.
-/

namespace RhythmGame

/-- The game's states (`enum GameState`, main.rs lines 13-18). -/
inductive GameState where
  | StartMenu
  | Playing
  | GameOverMenu
deriving DecidableEq, Repr

/-- The four lanes (`enum Column`, main.rs lines 46-52). -/
inductive Column where
  | Yellow
  | Red
  | Blue
  | Green
deriving DecidableEq, Repr

/-- `Column::index` (main.rs lines 55-62). -/
def Column.index : Column → Nat
  | .Yellow => 0
  | .Red => 1
  | .Blue => 2
  | .Green => 3

/-- `Distribution<Column>::sample` applied to the result of
`rng.gen_range(0..4)` (main.rs lines 66-73): `0 => Yellow`, `1 => Red`,
`2 => Blue`, anything else `=> Green`. -/
def sampleColumn : Nat → Column
  | 0 => .Yellow
  | 1 => .Red
  | 2 => .Blue
  | _ => .Green

/-- `struct Scoreboard` (main.rs lines 90-94). -/
structure Scoreboard where
  score : Int
  combo : Int
deriving DecidableEq, Repr

/-- `#[derive(Default)]` for `Scoreboard`: both fields start at 0. -/
def Scoreboard.default : Scoreboard := ⟨0, 0⟩

/-- `Scoreboard::hit` (main.rs lines 97-102): if `combo < 5` increment
`combo`; then add the (possibly incremented) `combo` to `score`. -/
def Scoreboard.hit (s : Scoreboard) : Scoreboard :=
  let combo := if s.combo < 5 then s.combo + 1 else s.combo
  { combo := combo, score := s.score + combo }

/-- `Scoreboard::miss` (main.rs lines 104-107): set `combo` to 0, then
subtract `combo + 1` (with `combo` already zeroed) from `score`. -/
def Scoreboard.miss (s : Scoreboard) : Scoreboard :=
  let combo : Int := 0
  { combo := combo, score := s.score - (combo + 1) }

/-- C1: `Scoreboard::hit` increments `combo` by 1 when `combo < 5` and
leaves it unchanged otherwise (so a combo that is at most 5 stays at
most 5), and the score delta of a hit is exactly the post-increment
combo. -/
theorem hit_spec (s : Scoreboard) :
    (s.combo < 5 → (s.hit).combo = s.combo + 1) ∧
    (¬ s.combo < 5 → (s.hit).combo = s.combo) ∧
    (s.hit).score = s.score + (s.hit).combo ∧
    (s.combo ≤ 5 → (s.hit).combo ≤ 5) := by
  unfold Scoreboard.hit
  by_cases h : s.combo < 5
  · simp [h]
    omega
  · simp [h]

/-- Witness for C1 at a concrete scoreboard (score 10, combo 3). -/
theorem hit_spec_witness :
    ((3 : Int) < 5 → (Scoreboard.hit ⟨10, 3⟩).combo = 3 + 1) ∧
    (¬ (3 : Int) < 5 → (Scoreboard.hit ⟨10, 3⟩).combo = 3) ∧
    (Scoreboard.hit ⟨10, 3⟩).score = 10 + (Scoreboard.hit ⟨10, 3⟩).combo ∧
    ((3 : Int) ≤ 5 → (Scoreboard.hit ⟨10, 3⟩).combo ≤ 5) :=
  hit_spec ⟨10, 3⟩

/-- C2: `Scoreboard::miss` resets `combo` to 0 before reading it again,
so the score delta of every miss is exactly `-1`, whatever the combo was
before the miss. -/
theorem miss_spec (s : Scoreboard) :
    (s.miss).combo = 0 ∧ (s.miss).score = s.score - 1 := by
  unfold Scoreboard.miss
  exact ⟨rfl, by simp⟩

/-- C9: the score is not clamped at zero: one miss from the default
scoreboard gives score `-1`, and `n` consecutive misses give score
`-n` (with combo 0), so the score can become arbitrarily negative. -/
theorem miss_iterate_spec :
    (Scoreboard.miss Scoreboard.default).score = -1 ∧
    ∀ n : Nat, (Scoreboard.miss^[n] Scoreboard.default) = ⟨-(n : Int), 0⟩ := by
  constructor
  · rfl
  · intro n
    induction n with
    | zero => rfl
    | succ k ih =>
        rw [Function.iterate_succ_apply', ih]
        unfold Scoreboard.miss
        simp
        omega

/-- A 2D position (the `x`/`y` of a bevy `Transform`), with `f32`
coordinates modelled exactly as rationals. -/
structure Position where
  x : Rat
  y : Rat
deriving DecidableEq, Repr

/-- A target entity as seen by the `update_targets`/`shoot_targets`
queries: an entity id, its `Transform` position and its `Column`. -/
structure TargetEnt where
  id : Nat
  pos : Position
  column : Column
deriving DecidableEq, Repr

/-- The target whose y-coordinate dropped by `150.0 * time.delta_seconds()`
(main.rs line 423); lane and x-coordinate untouched. -/
def moveTarget (dt : Rat) (t : TargetEnt) : TargetEnt :=
  { t with pos := { t.pos with y := t.pos.y - 150 * dt } }

/-- The outcome of one `update_targets` frame: surviving targets, the
`TargetMissEvent`s sent (in order), and the updated scoreboard. -/
structure UpdateResult where
  targets : List TargetEnt
  missEvents : List Column
  scoreboard : Scoreboard
deriving DecidableEq, Repr

/-- `update_targets` (main.rs lines 410-426): for each target in query
order, if its y-coordinate is below `-350.0` despawn it, send a
`TargetMissEvent` with its column, and apply `Scoreboard::miss`;
otherwise lower it by `150.0 * time.delta_seconds()`. -/
def update_targets (dt : Rat) : List TargetEnt → Scoreboard → UpdateResult
  | [], sb => ⟨[], [], sb⟩
  | t :: rest, sb =>
      if t.pos.y < -350 then
        let r := update_targets dt rest sb.miss
        ⟨r.targets, t.column :: r.missEvents, r.scoreboard⟩
      else
        let r := update_targets dt rest sb
        ⟨moveTarget dt t :: r.targets, r.missEvents, r.scoreboard⟩

/-- C4: one `update_targets` frame despawns exactly the targets whose
y-coordinate is below -350, sending one miss event (carrying the lane)
and one `Scoreboard::miss` per despawned target, and moves every other
target down by `150 * dt` with lane and x-coordinate unchanged. -/
theorem update_targets_spec (dt : Rat) (targets : List TargetEnt) (sb : Scoreboard) :
    (update_targets dt targets sb).targets
      = (targets.filter (fun t => ¬ t.pos.y < -350)).map (moveTarget dt) ∧
    (update_targets dt targets sb).missEvents
      = (targets.filter (fun t => t.pos.y < -350)).map TargetEnt.column ∧
    (update_targets dt targets sb).scoreboard
      = Scoreboard.miss^[(targets.filter (fun t => t.pos.y < -350)).length] sb ∧
    (∀ t : TargetEnt, (moveTarget dt t).column = t.column ∧
      (moveTarget dt t).pos.x = t.pos.x ∧
      (moveTarget dt t).pos.y = t.pos.y - 150 * dt) := by
  refine ⟨?_, ?_, ?_, fun t => ⟨rfl, rfl, rfl⟩⟩ <;>
  · induction targets generalizing sb with
    | nil => rfl
    | cons t rest ih =>
        by_cases h : t.pos.y < -350
        · simp [update_targets, h, ih, Function.iterate_succ_apply,
            List.filter_cons, not_le.mpr h]
        · simp [update_targets, h, ih, List.filter_cons, not_lt.mp h]

/-- The keyboard keys the game reads (`KeyCode` variants used in
main.rs: the eight lane keys and Escape). -/
inductive KeyCode where
  | A
  | H
  | S
  | J
  | D
  | K
  | F
  | L
  | Escape
deriving DecidableEq, Repr

/-- The `Input<KeyCode>` resource restricted to what the game queries:
the set of keys that were just pressed this frame. -/
structure Input where
  justPressed : List KeyCode
deriving DecidableEq, Repr

/-- `Input::any_just_pressed`: true when any of the given keys was just
pressed. -/
def Input.anyJustPressed (input : Input) (keys : List KeyCode) : Bool :=
  keys.any (fun k => input.justPressed.contains k)

/-- The key aliases of each lane, from the four `any_just_pressed` calls
in `shoot_targets` (main.rs lines 435, 448, 461, 474): Yellow is A/H,
Red is S/J, Blue is D/K, Green is F/L. -/
def laneKeys : Column → List KeyCode
  | .Yellow => [.A, .H]
  | .Red => [.S, .J]
  | .Blue => [.D, .K]
  | .Green => [.F, .L]

/-- The outcome of one `shoot_targets` frame: ids of despawned targets,
the `TargetHitEvent`s sent (in order), and the updated scoreboard. -/
structure ShootResult where
  despawned : List Nat
  hitEvents : List Column
  scoreboard : Scoreboard
deriving DecidableEq, Repr

/-- One of the four duplicated blocks of `shoot_targets` (the source
repeats this verbatim per column, main.rs lines 436-445 etc.): filter
the query for targets of the given column with `y <= -280.0`, and for
each one despawn it, send a `TargetHitEvent` and apply
`Scoreboard::hit`. -/
def shootColumn (targets : List TargetEnt) (col : Column) (r : ShootResult) :
    ShootResult :=
  (targets.filter (fun t => t.column = col ∧ t.pos.y ≤ -280)).foldl
    (fun acc t =>
      ⟨acc.despawned ++ [t.id], acc.hitEvents ++ [t.column], acc.scoreboard.hit⟩)
    r

/-- `shoot_targets` (main.rs lines 428-488): four sequential blocks, one
per lane, each guarded by that lane's `any_just_pressed` check. -/
def shoot_targets (targets : List TargetEnt) (input : Input) (sb : Scoreboard) :
    ShootResult :=
  let r0 : ShootResult := ⟨[], [], sb⟩
  let r1 := if input.anyJustPressed (laneKeys .Yellow)
    then shootColumn targets .Yellow r0 else r0
  let r2 := if input.anyJustPressed (laneKeys .Red)
    then shootColumn targets .Red r1 else r1
  let r3 := if input.anyJustPressed (laneKeys .Blue)
    then shootColumn targets .Blue r2 else r2
  if input.anyJustPressed (laneKeys .Green)
    then shootColumn targets .Green r3 else r3

/-- The targets a block of `shoot_targets` acts on: those of the given
column whose y-coordinate is at most -280. -/
def hitBand (targets : List TargetEnt) (col : Column) : List TargetEnt :=
  targets.filter (fun t => t.column = col ∧ t.pos.y ≤ -280)

theorem shootColumn_eq (targets : List TargetEnt) (col : Column) (r : ShootResult) :
    shootColumn targets col r =
      ⟨r.despawned ++ (hitBand targets col).map TargetEnt.id,
       r.hitEvents ++ (hitBand targets col).map TargetEnt.column,
       Scoreboard.hit^[(hitBand targets col).length] r.scoreboard⟩ := by
  unfold shootColumn hitBand
  generalize targets.filter (fun t => t.column = col ∧ t.pos.y ≤ -280) = l
  induction l generalizing r with
  | nil => simp
  | cons t rest ih =>
      simp [ih, Function.iterate_succ_apply]

/-- Whether a target qualifies for despawning this frame: its lane's key
was just pressed and it sits in the hit band. -/
def shootable (input : Input) (t : TargetEnt) : Bool :=
  input.anyJustPressed (laneKeys t.column) && decide (t.pos.y ≤ -280)

/-- The ids a single guarded block contributes to the despawn list. -/
def blockIds (targets : List TargetEnt) (input : Input) (c : Column) : List Nat :=
  if input.anyJustPressed (laneKeys c)
    then (hitBand targets c).map TargetEnt.id else []

/-- The hit events a single guarded block sends. -/
def blockEvents (targets : List TargetEnt) (input : Input) (c : Column) :
    List Column :=
  if input.anyJustPressed (laneKeys c)
    then (hitBand targets c).map TargetEnt.column else []

/-- The number of `Scoreboard::hit` calls a single guarded block makes. -/
def blockHits (targets : List TargetEnt) (input : Input) (c : Column) : Nat :=
  if input.anyJustPressed (laneKeys c) then (hitBand targets c).length else 0

theorem shoot_targets_eq (targets : List TargetEnt) (input : Input)
    (sb : Scoreboard) :
    shoot_targets targets input sb =
      ⟨blockIds targets input .Yellow ++ (blockIds targets input .Red ++
        (blockIds targets input .Blue ++ blockIds targets input .Green)),
       blockEvents targets input .Yellow ++ (blockEvents targets input .Red ++
        (blockEvents targets input .Blue ++ blockEvents targets input .Green)),
       Scoreboard.hit^[blockHits targets input .Green]
        (Scoreboard.hit^[blockHits targets input .Blue]
          (Scoreboard.hit^[blockHits targets input .Red]
            (Scoreboard.hit^[blockHits targets input .Yellow] sb)))⟩ := by
  unfold shoot_targets blockIds blockEvents blockHits
  by_cases h1 : input.anyJustPressed (laneKeys .Yellow) <;>
    by_cases h2 : input.anyJustPressed (laneKeys .Red) <;>
      by_cases h3 : input.anyJustPressed (laneKeys .Blue) <;>
        by_cases h4 : input.anyJustPressed (laneKeys .Green) <;>
          simp [h1, h2, h3, h4, shootColumn_eq]

theorem mem_hitBand (targets : List TargetEnt) (c : Column) (t : TargetEnt) :
    t ∈ hitBand targets c ↔ t ∈ targets ∧ t.column = c ∧ t.pos.y ≤ -280 := by
  simp [hitBand, List.mem_filter]

theorem hitBand_map_column (targets : List TargetEnt) (c : Column) :
    (hitBand targets c).map TargetEnt.column =
      List.replicate (hitBand targets c).length c := by
  rw [← List.length_map (hitBand targets c) TargetEnt.column]
  apply List.eq_replicate_of_mem
  intro b hb
  rcases List.mem_map.mp hb with ⟨t, ht, rfl⟩
  exact ((mem_hitBand targets c t).mp ht).2.1

theorem mem_blockIds (targets : List TargetEnt) (input : Input) (c : Column)
    (t : TargetEnt) (hnd : (targets.map TargetEnt.id).Nodup) (ht : t ∈ targets) :
    t.id ∈ blockIds targets input c ↔
      (input.anyJustPressed (laneKeys c) = true ∧
        t.column = c ∧ t.pos.y ≤ -280) := by
  unfold blockIds
  by_cases hp : input.anyJustPressed (laneKeys c)
  · simp only [hp, if_pos, true_and]
    constructor
    · intro h
      rcases List.mem_map.mp h with ⟨t', ht', hid⟩
      rcases (mem_hitBand targets c t').mp ht' with ⟨htm, hcol, hy⟩
      have heq : t' = t := List.inj_on_of_nodup_map hnd htm ht hid
      exact ⟨heq ▸ hcol, heq ▸ hy⟩
    · rintro ⟨hc, hy⟩
      exact List.mem_map.mpr ⟨t, (mem_hitBand targets c t).mpr ⟨ht, hc, hy⟩, rfl⟩
  · simp [hp]

/-- C3: during Playing, when a lane's keys (Yellow A/H, Red S/J, Blue
D/K, Green F/L, per `laneKeys`) register as just pressed,
`shoot_targets` despawns exactly the targets of that lane with
y-coordinate at most -280 (targets of other lanes, of unpressed lanes,
or above the band survive); it sends one `TargetHitEvent` per despawned
target of that lane and applies `Scoreboard::hit` once per hit event. -/
theorem shoot_targets_spec (targets : List TargetEnt) (input : Input)
    (sb : Scoreboard) (hnd : (targets.map TargetEnt.id).Nodup) :
    (∀ c : Column, (laneKeys c).length = 2) ∧
    (∀ t ∈ targets,
      (t.id ∈ (shoot_targets targets input sb).despawned ↔
        (input.anyJustPressed (laneKeys t.column) = true ∧
          t.pos.y ≤ -280))) ∧
    (∀ c : Column,
      ((shoot_targets targets input sb).hitEvents.count c =
        if input.anyJustPressed (laneKeys c)
          then (hitBand targets c).length else 0)) ∧
    (shoot_targets targets input sb).scoreboard =
      Scoreboard.hit^[(shoot_targets targets input sb).hitEvents.length] sb := by
  rw [shoot_targets_eq]
  refine ⟨fun c => by cases c <;> rfl, ?_, ?_, ?_⟩
  · intro t ht
    simp only [List.mem_append,
      mem_blockIds targets input _ t hnd ht]
    cases hc : t.column <;> simp [hc]
  · intro c
    simp only [List.count_append, blockEvents, apply_ite (List.count c),
      hitBand_map_column, List.count_replicate, List.count_nil]
    cases c <;> by_cases h1 : input.anyJustPressed (laneKeys .Yellow) <;>
      by_cases h2 : input.anyJustPressed (laneKeys .Red) <;>
        by_cases h3 : input.anyJustPressed (laneKeys .Blue) <;>
          by_cases h4 : input.anyJustPressed (laneKeys .Green) <;>
            simp [h1, h2, h3, h4]
  · simp only [List.length_append, blockEvents, apply_ite List.length,
      List.length_map, List.length_nil, ← Function.iterate_add_apply]
    unfold blockHits
    congr 1
    omega

/-- Witness for C3: two targets with distinct ids, the Yellow target in
the hit band at y = -300, the Red one high up at y = -100, with only
the A key just pressed. -/
theorem shoot_targets_spec_witness :
    (([TargetEnt.mk 1 ⟨-135, -300⟩ .Yellow,
       TargetEnt.mk 2 ⟨-45, -100⟩ .Red].map TargetEnt.id).Nodup) ∧
    ((∀ c : Column, (laneKeys c).length = 2) ∧
    (∀ t ∈ [TargetEnt.mk 1 ⟨-135, -300⟩ .Yellow,
       TargetEnt.mk 2 ⟨-45, -100⟩ .Red],
      (t.id ∈ (shoot_targets [TargetEnt.mk 1 ⟨-135, -300⟩ .Yellow,
          TargetEnt.mk 2 ⟨-45, -100⟩ .Red] ⟨[.A]⟩ ⟨0, 0⟩).despawned ↔
        ((Input.mk [.A]).anyJustPressed (laneKeys t.column) = true ∧
          t.pos.y ≤ -280))) ∧
    (∀ c : Column,
      ((shoot_targets [TargetEnt.mk 1 ⟨-135, -300⟩ .Yellow,
          TargetEnt.mk 2 ⟨-45, -100⟩ .Red] ⟨[.A]⟩ ⟨0, 0⟩).hitEvents.count c =
        if (Input.mk [.A]).anyJustPressed (laneKeys c)
          then (hitBand [TargetEnt.mk 1 ⟨-135, -300⟩ .Yellow,
            TargetEnt.mk 2 ⟨-45, -100⟩ .Red] c).length else 0)) ∧
    (shoot_targets [TargetEnt.mk 1 ⟨-135, -300⟩ .Yellow,
        TargetEnt.mk 2 ⟨-45, -100⟩ .Red] ⟨[.A]⟩ ⟨0, 0⟩).scoreboard =
      Scoreboard.hit^[(shoot_targets [TargetEnt.mk 1 ⟨-135, -300⟩ .Yellow,
        TargetEnt.mk 2 ⟨-45, -100⟩ .Red] ⟨[.A]⟩ ⟨0, 0⟩).hitEvents.length]
        ⟨0, 0⟩) :=
  ⟨by decide,
   shoot_targets_spec
     [TargetEnt.mk 1 ⟨-135, -300⟩ .Yellow, TargetEnt.mk 2 ⟨-45, -100⟩ .Red]
     ⟨[.A]⟩ ⟨0, 0⟩ (by decide)⟩

/-- `struct TextureAtlasHandles` (main.rs lines 76-80): the two atlas
handles, `None` until `load_assets` stores them; handles are modelled
as opaque numerals. -/
structure TextureAtlasHandles where
  crosshairs : Option Nat
  targets : Option Nat
deriving DecidableEq, Repr

/-- `struct NoteAudioHandles` (main.rs lines 82-88). -/
structure NoteAudioHandles where
  yellow : Option Nat
  red : Option Nat
  blue : Option Nat
  green : Option Nat
deriving DecidableEq, Repr

/-- What `setup_game` spawns: one crosshair per column at
`(index*90 - 135, -305)` and a score display at `(-200, 300)` whose two
text sections are `"Score: "` and `"0"` (main.rs lines 338-377). -/
structure GameScene where
  crosshairs : List (Column × Position)
  scoreDisplaySections : List String
  scoreDisplayPos : Position
deriving DecidableEq, Repr

/-- `setup_game` (main.rs lines 331-378). The `unwrap` of the
crosshairs atlas handle (line 336) is modelled as `Except.error ()`
when the handle is still `None`. -/
def setup_game (h : TextureAtlasHandles) : Except Unit GameScene :=
  match h.crosshairs with
  | none => .error ()
  | some _ => .ok
      { crosshairs := [Column.Yellow, .Red, .Blue, .Green].map
          (fun c => (c, ⟨(c.index : Rat) * 90 - 135, -305⟩)),
        scoreDisplaySections := ["Score: ", "0"],
        scoreDisplayPos := ⟨-200, 300⟩ }

/-- The single target entity one `spawn_targets` tick spawns. -/
structure SpawnedTarget where
  column : Column
  pos : Position
deriving DecidableEq, Repr

/-- `spawn_targets` (main.rs lines 387-408): draw a random column
(`rngVal` is the value `rng.gen_range(0..4)` produced), unwrap the
targets atlas handle (error when `None`), and spawn one target at
`(index*90 - 135, 400)`. -/
def spawn_targets (rngVal : Nat) (h : TextureAtlasHandles) :
    Except Unit SpawnedTarget :=
  let column := sampleColumn rngVal
  match h.targets with
  | none => .error ()
  | some _ => .ok ⟨column, ⟨(column.index : Rat) * 90 - 135, 400⟩⟩

/-- The per-column audio handle lookup in `play_hit_sound`
(main.rs lines 496-501). -/
def noteHandle (a : NoteAudioHandles) : Column → Option Nat
  | .Yellow => a.yellow
  | .Red => a.red
  | .Blue => a.blue
  | .Green => a.green

/-- `play_hit_sound` (main.rs lines 490-505): for each hit event, play
the lane's sound when its handle is loaded (`if let Some`); a `None`
handle is skipped silently — there is no `unwrap` here, so this system
has no fault site and always returns `.ok` with the handles played. -/
def play_hit_sound (events : List Column) (a : NoteAudioHandles) :
    Except Unit (List Nat) :=
  .ok (events.filterMap (fun c => noteHandle a c))

/-- The fixed-timestep stage main registers for the spawner
(main.rs lines 161-167): a 350 ms timestep driving `spawn_targets`,
conditioned by `run_in_state(GameState::Playing)`. -/
structure SpawnerStage where
  timestepMillis : Nat
  runInState : GameState
deriving DecidableEq, Repr

def spawnerStage : SpawnerStage := { timestepMillis := 350, runInState := .Playing }

/-- C5: targets spawn on a 350 ms fixed timestep, only in the Playing
state; each tick spawns exactly one target whose lane is drawn
uniformly (each of the four rng outcomes `0..4` yields a distinct
lane), at `x = lane_index * 90 - 135`, `y = 400`. -/
theorem spawn_targets_spec (rngVal : Nat) (h : TextureAtlasHandles)
    (a : Nat) (ha : h.targets = some a) :
    spawnerStage.timestepMillis = 350 ∧
    spawnerStage.runInState = .Playing ∧
    spawn_targets rngVal h =
      .ok ⟨sampleColumn rngVal,
        ⟨((sampleColumn rngVal).index : Rat) * 90 - 135, 400⟩⟩ ∧
    ∀ c : Column,
      ((List.range 4).filter (fun m => sampleColumn m = c)).length = 1 := by
  refine ⟨rfl, rfl, ?_, ?_⟩
  · unfold spawn_targets
    rw [ha]
  · intro c
    cases c <;> decide

/-- Witness for C5 at rng outcome 2 with a loaded targets handle. -/
theorem spawn_targets_spec_witness :
    (TextureAtlasHandles.mk (some 0) (some 7)).targets = some 7 ∧
    (spawnerStage.timestepMillis = 350 ∧
     spawnerStage.runInState = .Playing ∧
     spawn_targets 2 ⟨some 0, some 7⟩ =
       .ok ⟨sampleColumn 2, ⟨((sampleColumn 2).index : Rat) * 90 - 135, 400⟩⟩ ∧
     ∀ c : Column,
       ((List.range 4).filter (fun m => sampleColumn m = c)).length = 1) :=
  ⟨rfl, spawn_targets_spec 2 ⟨some 0, some 7⟩ 7 rfl⟩

/-- The kind of a spawned entity, as far as the claims need it. -/
inductive EntityKind where
  | crosshair (c : Column) (pos : Position)
  | scoreDisplay (sections : List String) (pos : Position)
  | fallingTarget (c : Column) (pos : Position)
  | menuUi
deriving DecidableEq, Repr

/-- An entity with its marker components: `Game` (main.rs line 26) and
`StartMenu` (line 22). -/
structure GameEntity where
  kind : EntityKind
  game : Bool
  startMenu : Bool
deriving DecidableEq, Repr

/-- `despawn_with::<T>` (main.rs lines 180-184): despawn every entity
carrying the marker, i.e. keep exactly those without it. -/
def despawn_with (marker : GameEntity → Bool) (entities : List GameEntity) :
    List GameEntity :=
  entities.filter (fun e => !(marker e))

/-- `menu_on_esc` (main.rs lines 381-385): insert
`NextState(GameState::StartMenu)` when Escape was just pressed. -/
def menu_on_esc (input : Input) : Option GameState :=
  if input.justPressed.contains .Escape then some .StartMenu else none

/-- `on_start_button` (main.rs lines 321-323): the state inserted when
the start button fires. -/
def on_start_button : GameState := .Playing

/-- The exit system registered for `GameState::Playing`
(main.rs line 169): `despawn_with::<Game>` over the entities; the
scoreboard resource is untouched. -/
def playingExitSystem (w : Scoreboard × List GameEntity) :
    Scoreboard × List GameEntity :=
  (w.1, despawn_with GameEntity.game w.2)

/-- The entities `setup_game` spawns, all inserted with the `Game`
marker (main.rs lines 351 and 376). -/
def sceneEntities (scene : GameScene) : List GameEntity :=
  scene.crosshairs.map (fun cp => ⟨.crosshair cp.1 cp.2, true, false⟩) ++
  [⟨.scoreDisplay scene.scoreDisplaySections scene.scoreDisplayPos, true, false⟩]

/-- The enter system registered for `GameState::Playing`
(main.rs line 148): `setup_game`, whose parameters are `Commands` and
two read-only asset resources — it has no access to the `Scoreboard`
resource, so the scoreboard passes through unchanged while the scene
entities are spawned. -/
def playingEnterSystem (h : TextureAtlasHandles)
    (w : Scoreboard × List GameEntity) :
    Except Unit (Scoreboard × List GameEntity) :=
  (setup_game h).map (fun scene => (w.1, w.2 ++ sceneEntities scene))

/-- C6: pressing Escape during Playing inserts
`NextState(GameState::StartMenu)`, and the exit system for Playing
despawns every entity carrying the `Game` marker, so no gameplay entity
survives into the menu. -/
theorem esc_exits_to_menu (input : Input)
    (h : input.justPressed.contains KeyCode.Escape = true)
    (w : Scoreboard × List GameEntity) :
    menu_on_esc input = some .StartMenu ∧
    ∀ e ∈ (playingExitSystem w).2, e.game = false := by
  constructor
  · have hm : KeyCode.Escape ∈ input.justPressed := by simpa using h
    simp [menu_on_esc, hm]
  · intro e he
    simp only [playingExitSystem, despawn_with, List.mem_filter,
      Bool.not_eq_true'] at he
    exact he.2

/-- Witness for C6: Escape just pressed, a world holding one
`Game`-marked target and one unmarked entity. -/
theorem esc_exits_to_menu_witness :
    (Input.mk [KeyCode.Escape]).justPressed.contains KeyCode.Escape = true ∧
    (menu_on_esc ⟨[KeyCode.Escape]⟩ = some .StartMenu ∧
     ∀ e ∈ (playingExitSystem (⟨0, 0⟩,
        [⟨.fallingTarget .Red ⟨-45, 10⟩, true, false⟩,
         ⟨.menuUi, false, true⟩])).2, e.game = false) :=
  ⟨by decide,
   esc_exits_to_menu ⟨[KeyCode.Escape]⟩ (by decide)
     (⟨0, 0⟩, [⟨.fallingTarget .Red ⟨-45, 10⟩, true, false⟩,
       ⟨.menuUi, false, true⟩])⟩

/-- Counterexample for C7 as stated: with every audio handle missing
(`None`), `play_hit_sound` on a hit event returns normally having
played nothing — a missing audio handle does NOT cause an unrecoverable
fault at first use, because the source guards it with `if let Some`
rather than unwrapping. -/
theorem play_hit_sound_no_fault :
    play_hit_sound [Column.Yellow] ⟨none, none, none, none⟩ = .ok [] := rfl

/-- C7 (amended): a missing texture-atlas handle faults unrecoverably
at first use — `setup_game` unwraps the crosshairs handle and
`spawn_targets` unwraps the targets handle, with no retry or recovery
path — but the hit-sound system never faults: a missing audio handle is
silently skipped and no sound is played for it. -/
theorem asset_fault_spec (h1 : TextureAtlasHandles)
    (hc : h1.crosshairs = none) (h2 : TextureAtlasHandles)
    (ht : h2.targets = none) (rngVal : Nat) :
    setup_game h1 = .error () ∧
    spawn_targets rngVal h2 = .error () ∧
    (∀ events a, ∃ played, play_hit_sound events a = .ok played) ∧
    (∀ events, play_hit_sound events ⟨none, none, none, none⟩ = .ok []) := by
  refine ⟨?_, ?_, fun events a => ⟨_, rfl⟩, ?_⟩
  · unfold setup_game
    rw [hc]
  · unfold spawn_targets
    rw [ht]
  · intro events
    simp only [play_hit_sound, Except.ok.injEq]
    rw [List.filterMap_eq_nil_iff]
    intro c _
    cases c <;> rfl

/-- Witness for C7 (amended): both atlas handles missing, rng outcome 0. -/
theorem asset_fault_spec_witness :
    (TextureAtlasHandles.mk none (some 3)).crosshairs = none ∧
    (TextureAtlasHandles.mk (some 3) none).targets = none ∧
    (setup_game ⟨none, some 3⟩ = .error () ∧
     spawn_targets 0 ⟨some 3, none⟩ = .error () ∧
     (∀ events a, ∃ played, play_hit_sound events a = .ok played) ∧
     (∀ events, play_hit_sound events ⟨none, none, none, none⟩ = .ok [])) :=
  ⟨rfl, rfl, asset_fault_spec ⟨none, some 3⟩ rfl ⟨some 3, none⟩ rfl 0⟩

/-- The state transitions the app can perform. The only `NextState`
insertions in the source are `on_start_button` (registered to run while
in StartMenu, main.rs lines 141 and 322) and `menu_on_esc` (registered
to run while in Playing, main.rs lines 154 and 383); the initial state
is StartMenu (line 129). -/
inductive Step : GameState → GameState → Prop where
  | startButton : Step .StartMenu on_start_button
  | esc (input : Input) (s : GameState) :
      menu_on_esc input = some s → Step .Playing s

/-- A state is reachable when the app can get there from the initial
`StartMenu` state by the transitions above. -/
def Reachable (s : GameState) : Prop :=
  Relation.ReflTransGen Step .StartMenu s

/-- C8: `GameOverMenu` is dead — every reachable state of the state
machine is `StartMenu` or `Playing`. -/
theorem reachable_not_gameover (s : GameState) (h : Reachable s) :
    s = .StartMenu ∨ s = .Playing := by
  induction h with
  | refl => exact Or.inl rfl
  | tail _ hstep ih =>
      cases hstep with
      | startButton => exact Or.inr rfl
      | esc input s' hmenu =>
          unfold menu_on_esc at hmenu
          split at hmenu
          · exact Or.inl (Option.some.injEq .. ▸ hmenu).symm
          · exact absurd hmenu (by simp)

/-- Witness for C8: `Playing` is reachable (press the start button) and
the theorem classifies it. -/
theorem reachable_not_gameover_witness :
    Reachable .Playing ∧
    (GameState.Playing = .StartMenu ∨ GameState.Playing = .Playing) :=
  ⟨Relation.ReflTransGen.single Step.startButton,
   reachable_not_gameover .Playing
     (Relation.ReflTransGen.single Step.startButton)⟩

/-- C10: neither entering nor leaving `Playing` resets the `Scoreboard`
resource — `setup_game` passes it through unchanged (while re-creating
the on-screen score display with text sections `"Score: "` and `"0"`),
and the exit system only despawns entities — so a second session starts
with the previous session's score and combo. -/
theorem scoreboard_not_reset (sb : Scoreboard) (es : List GameEntity)
    (h : TextureAtlasHandles) (w' : Scoreboard × List GameEntity)
    (henter : playingEnterSystem h (sb, es) = .ok w') :
    w'.1 = sb ∧
    (playingExitSystem (sb, es)).1 = sb ∧
    ∀ scene, setup_game h = .ok scene →
      scene.scoreDisplaySections = ["Score: ", "0"] := by
  refine ⟨?_, rfl, ?_⟩
  · unfold playingEnterSystem at henter
    cases hs : setup_game h with
    | error e => rw [hs] at henter; exact absurd henter (by simp [Except.map])
    | ok scene =>
        rw [hs] at henter
        simp only [Except.map, Except.ok.injEq] at henter
        rw [← henter]
  · intro scene hs
    unfold setup_game at hs
    cases hc : h.crosshairs with
    | none => rw [hc] at hs; exact absurd hs (by simp)
    | some a =>
        rw [hc] at hs
        simp only [Except.ok.injEq] at hs
        rw [← hs]

/-- Witness for C10: a carried-over scoreboard (score 17, combo 4) and
a loaded atlas survive entering Playing unchanged. -/
theorem scoreboard_not_reset_witness :
    playingEnterSystem ⟨some 1, some 2⟩ ((⟨17, 4⟩ : Scoreboard), []) =
      .ok ((⟨17, 4⟩ : Scoreboard),
        [] ++ sceneEntities
          { crosshairs := [Column.Yellow, .Red, .Blue, .Green].map
              (fun c => (c, ⟨(c.index : Rat) * 90 - 135, -305⟩)),
            scoreDisplaySections := ["Score: ", "0"],
            scoreDisplayPos := ⟨-200, 300⟩ }) ∧
    (((⟨17, 4⟩ : Scoreboard),
        [] ++ sceneEntities
          { crosshairs := [Column.Yellow, .Red, .Blue, .Green].map
              (fun c => (c, ⟨(c.index : Rat) * 90 - 135, -305⟩)),
            scoreDisplaySections := ["Score: ", "0"],
            scoreDisplayPos := ⟨-200, 300⟩ }) :
      Scoreboard × List GameEntity).1 = ⟨17, 4⟩ ∧
    (playingExitSystem ((⟨17, 4⟩ : Scoreboard), [])).1 = ⟨17, 4⟩ ∧
    (∀ scene, setup_game ⟨some 1, some 2⟩ = .ok scene →
      scene.scoreDisplaySections = ["Score: ", "0"]) :=
  ⟨rfl, scoreboard_not_reset ⟨17, 4⟩ [] ⟨some 1, some 2⟩ _ rfl⟩

end RhythmGame
